import Mathlib

/-!
Verification development for a small movie-tracking CRUD application.

The data-access layer (`SQLiteDataManager` in `datamanager/sqlite_data_manager.py`)
and the entity schema (`models.py`) are shallowly embedded below: the database is a
`DBState` record of entity lists plus autoincrement counters, each data-manager
method becomes a Lean function threading that state, and Python exceptions become
an explicit `PyErr` sum carried through `Except`.  Mutating methods commit as one
unit of work per call: a method that raises before its commit leaves the committed
store unchanged (the session is rolled back), so fallible operations return the
original state alongside the error.
-/

namespace MovieApp

/-- A dynamically typed value passed as a keyword argument to `update_movie`
(Python `**fields`).  Claims exercise only string, int and float values. -/
inductive FieldVal where
  | vstr (s : String)
  | vint (n : Int)
  | vrat (q : Rat)
deriving Repr, DecidableEq

/-- `models.User`: `{id, name}`. -/
structure User where
  id : Nat
  name : String
deriving Repr, DecidableEq

/-- `models.Director`: `{id, name, birth_date?}`.  `birth_date` is nullable and is
never set by any data-manager operation. -/
structure Director where
  id : Nat
  name : String
  birth_date : Option String
deriving Repr, DecidableEq

/-- `models.Genre`: `{id, name}`. -/
structure Genre where
  id : Nat
  name : String
deriving Repr, DecidableEq

/-- `models.Movie`: `{id, name, director_id?, genre_id?, year, rating, user_id}`.
`director_id` and `genre_id` are nullable foreign keys; `user_id` is NOT NULL. -/
structure Movie where
  id : Nat
  name : String
  director_id : Option Nat
  genre_id : Option Nat
  year : Int
  rating : Rat
  user_id : Nat
deriving Repr, DecidableEq

/-- `models.Review`: `{id, user_id, movie_id, review_text, rating}`.  The
server-generated `created_at` timestamp is not modelled (no claim touches it). -/
structure Review where
  id : Nat
  user_id : Nat
  movie_id : Nat
  review_text : String
  rating : Rat
deriving Repr, DecidableEq

/-- The committed database: one list per table plus the autoincrement counters
SQLite assigns primary keys from. -/
structure DBState where
  users : List User
  directors : List Director
  genres : List Genre
  movies : List Movie
  reviews : List Review
  next_user_id : Nat
  next_director_id : Nat
  next_genre_id : Nat
  next_movie_id : Nat
  next_review_id : Nat
deriving Repr, DecidableEq

/-- A freshly created database (`db.create_all()` on an empty file). -/
def DBState.empty : DBState := ⟨[], [], [], [], [], 1, 1, 1, 1, 1⟩

/-- Python exceptions raised by the embedded code.  (`attributeError` stands
for the exception SQLAlchemy's relationship machinery raises when a plain
value is assigned to an instrumented relationship attribute; depending on the
value it surfaces as `AttributeError` or `TypeError`, uniformly modelled
here.) -/
inductive PyErr where
  | valueError (msg : String)
  | typeError (msg : String)
  | attributeError (msg : String)
deriving Repr, DecidableEq

/-! ### Python string primitives used by the source -/

/-- The whitespace characters `str.strip` removes (ASCII subset; the application
only ever feeds it ASCII whitespace). -/
def pyIsSpace (c : Char) : Bool :=
  c = ' ' || c = '\t' || c = '\n' || c = '\r'

/-- `str.strip()` on a character list: drop whitespace from both ends. -/
def pyStripList (l : List Char) : List Char :=
  ((l.dropWhile pyIsSpace).reverse.dropWhile pyIsSpace).reverse

/-- `s.strip()`. -/
def pyStrip (s : String) : String :=
  ⟨pyStripList s.data⟩

/-- Does `l` start with `sep`? -/
def leadsWith : List Char → List Char → Bool
  | [], _ => true
  | _ :: _, [] => false
  | a :: as, b :: bs => a = b && leadsWith as bs

/-- `line.split(sep, 1)` when `sep` occurs in `line`: the parts before and after
the first occurrence of `sep`; `none` when `sep` does not occur (which is also
the `sep in line` membership test). -/
def listSplitOnce (sep : List Char) : List Char → Option (List Char × List Char)
  | [] => none
  | c :: rest =>
    if leadsWith sep (c :: rest) then some ([], (c :: rest).drop sep.length)
    else
      match listSplitOnce sep rest with
      | some (a, b) => some (c :: a, b)
      | none => none

/-! ### `parse_year` (`sqlite_data_manager.py`, lines 20-32)

`re.search(r"\d{4}", raw_year)` finds the leftmost position where four
consecutive decimal digits start and `int(match.group(0))` converts them. -/

/-- Numeric value of a digit run (`int` on the matched text). -/
def digitsVal (l : List Char) : Nat :=
  l.foldl (fun a c => a * 10 + (c.toNat - '0'.toNat)) 0

/-- Four consecutive digits at the head of the list, if present. -/
def fourDigitsHere (l : List Char) : Option Nat :=
  match l with
  | c1 :: c2 :: c3 :: c4 :: _ =>
    if c1.isDigit && c2.isDigit && c3.isDigit && c4.isDigit then
      some (digitsVal [c1, c2, c3, c4])
    else none
  | _ => none

/-- `re.search(r"\d{4}", ·)`: scan left to right for the first position where
four consecutive digits start. -/
def searchFourDigits : List Char → Option Nat
  | [] => none
  | c :: rest =>
    match fourDigitsHere (c :: rest) with
    | some v => some v
    | none => searchFourDigits rest

/-- `SQLiteDataManager.parse_year`: `0` on a falsy (empty) input or when no
four-digit run exists, otherwise the value of the first four-digit run. -/
def parse_year (raw_year : String) : Int :=
  if raw_year = "" then 0
  else
    match searchFourDigits raw_year.data with
    | none => 0
    | some v => (v : Int)

/-! ### User methods (`sqlite_data_manager.py`, lines 35-52) -/

/-- `get_all_users`: `session.query(User).all()`. -/
def get_all_users (s : DBState) : List User := s.users

/-- `get_user`: `session.get(User, user_id)` — primary-key lookup. -/
def get_user (s : DBState) (user_id : Nat) : Option User :=
  s.users.find? (fun u => u.id == user_id)

/-- `add_user`: create `User(name=name)`, add, commit; the committed row carries
the autoincrement id. -/
def add_user (s : DBState) (name : String) : DBState × User :=
  let user : User := ⟨s.next_user_id, name⟩
  ({ s with
      users := s.users ++ [user],
      next_user_id := s.next_user_id + 1 }, user)

/-! ### Movie methods (`sqlite_data_manager.py`, lines 55-179) -/

/-- `get_user_movies`: `query(Movie).filter(Movie.user_id == user_id).all()`. -/
def get_user_movies (s : DBState) (user_id : Nat) : List Movie :=
  s.movies.filter (fun m => m.user_id == user_id)

/-- `get_movie`: `session.get(Movie, movie_id)`. -/
def get_movie (s : DBState) (movie_id : Nat) : Option Movie :=
  s.movies.find? (fun m => m.id == movie_id)

/-- `_get_or_create_director` (lines 63-79): strip the name; an empty stripped
name resolves to `None` without creating a row; otherwise look up by exact
stripped-name match (`.first()`), creating and flushing a new row if absent so
its id is available before commit. -/
def _get_or_create_director (s : DBState) (director_name : String) :
    DBState × Option Director :=
  if pyStrip director_name = "" then (s, none)
  else
    match s.directors.find? (fun d => d.name == pyStrip director_name) with
    | some d => (s, some d)
    | none =>
      let d : Director := ⟨s.next_director_id, pyStrip director_name, none⟩
      ({ s with
          directors := s.directors ++ [d],
          next_director_id := s.next_director_id + 1 }, some d)

/-- The attributes of the `Movie` declarative class: its mapped columns and
relationships.  The declarative constructor accepts exactly these as keyword
arguments and raises `TypeError` for anything else. -/
def movieClassAttrs : List String :=
  ["id", "name", "director_id", "genre_id", "director", "genre",
   "year", "rating", "user_id", "user", "reviews"]

/-- The kwarg check of SQLAlchemy's declarative `Movie.__init__`: the first
keyword that is not an attribute of the class raises `TypeError` (Python's
message quotes the keyword name). -/
def movieCtorCheck (kwargs : List String) : Except PyErr Unit :=
  match kwargs.find? (fun k => !(movieClassAttrs.contains k)) with
  | some k => .error (.typeError (k ++ " is an invalid keyword argument for Movie"))
  | none => .ok ()

/-- Step 2 of `add_movie` (lines 107-112), inlined in the source: find-or-create
the Director by the RAW `director` string — the `_get_or_create_director`
helper is NOT called here, so there is no stripping and no empty-name check,
and a row is created even for an empty or whitespace-only name.  A created row
is flushed, making its id available before commit. -/
def addMovieDirectorStep (s : DBState) (director : String) : DBState × Director :=
  match s.directors.find? (fun d => d.name == director) with
  | some d => (s, d)
  | none =>
    let d : Director := ⟨s.next_director_id, director, none⟩
    ({ s with
        directors := s.directors ++ [d],
        next_director_id := s.next_director_id + 1 }, d)

/-- Step 3 of `add_movie` (lines 114-121): find-or-create the Genre by the raw
string when it is truthy (non-`None` and non-empty); no stripping. -/
def addMovieGenreStep (s : DBState) (genre : Option String) :
    DBState × Option Genre :=
  match genre with
  | some g =>
    if g ≠ "" then
      match s.genres.find? (fun x => x.name == g) with
      | some x => (s, some x)
      | none =>
        ({ s with
            genres := s.genres ++ [⟨s.next_genre_id, g⟩],
            next_genre_id := s.next_genre_id + 1 },
         some ⟨s.next_genre_id, g⟩)
    else (s, none)
  | none => (s, none)

/-- `add_movie` (lines 81-137), exactly as written: (1) raise `ValueError` if the
user does not exist; (2) find-or-create the Director by the raw name; (3)
find-or-create the Genre when provided; (4) construct
`Movie(name=…, year=…, rating=…, user_id=…, director=…, genre=…, poster_url=…)`.
The `Movie` model has no `poster_url` attribute, so step (4) raises `TypeError`
before the commit; the rolled-back call leaves the committed store unchanged. -/
def add_movie (s : DBState) (user_id : Nat) (name : String) (director : String)
    (year : Int) (rating : Rat) (poster_url : Option String)
    (genre : Option String) : DBState × Except PyErr Movie :=
  match get_user s user_id with
  | none =>
    (s, .error (.valueError ("User with id " ++ toString user_id ++ " does not exist")))
  | some _ =>
    let s1d := addMovieDirectorStep s director
    let s2g := addMovieGenreStep s1d.1 genre
    match movieCtorCheck
        ["name", "year", "rating", "user_id", "director", "genre", "poster_url"] with
    | .error e =>
      -- the exception propagates; nothing was committed, so the caller's
      -- store is unchanged (poster_url is silenced below to keep it live)
      let _ := poster_url
      (s, .error e)
    | .ok _ =>
      let movie : Movie :=
        ⟨s2g.1.next_movie_id, name, some s1d.2.id,
         s2g.2.map (fun g => g.id), year, rating, user_id⟩
      ({ s2g.1 with
          movies := s2g.1.movies ++ [movie],
          next_movie_id := s2g.1.next_movie_id + 1 }, .ok movie)

/-- Modelled intent of `add_movie`: identical to `add_movie` except that the
invalid `poster_url` keyword is not passed to the `Movie` constructor (the
`Movie` model has no such column, so the method as written always raises
`TypeError`; its own docstring, the routes and the tests all expect it to
return the created movie).  Its persistence logic coincides with the JSON API
route `api_add_movie` in `api.py`, which performs the same steps without
`poster_url` and commits.  Used to settle the claims that presuppose a
successful `add_movie`. -/
def add_movie_fixed (s : DBState) (user_id : Nat) (name : String)
    (director : String) (year : Int) (rating : Rat) (genre : Option String) :
    DBState × Except PyErr Movie :=
  match get_user s user_id with
  | none =>
    (s, .error (.valueError ("User with id " ++ toString user_id ++ " does not exist")))
  | some _ =>
    let s1d := addMovieDirectorStep s director
    let s2g := addMovieGenreStep s1d.1 genre
    let movie : Movie :=
      ⟨s2g.1.next_movie_id, name, some s1d.2.id,
       s2g.2.map (fun g => g.id), year, rating, user_id⟩
    ({ s2g.1 with
        movies := s2g.1.movies ++ [movie],
        next_movie_id := s2g.1.next_movie_id + 1 }, .ok movie)

/-- The mapped scalar columns of `Movie`: assigning to one of these in
`update_movie`'s `hasattr`/`setattr` loop records a value that the commit
persists. -/
def movieColumnKeys : List String :=
  ["id", "name", "director_id", "genre_id", "year", "rating", "user_id"]

/-- The instrumented relationship attributes of the `Movie` class. -/
def movieRelationshipKeys : List String :=
  ["director", "genre", "user", "reviews"]

/-- `setattr(movie, key, value)` for a mapped scalar column, with the value of
the dynamic type the column stores.  (A type-mismatched assignment only
surfaces when SQLAlchemy flushes; no claim exercises one.) -/
def setColumn (m : Movie) (k : String) (v : FieldVal) : Movie :=
  match k, v with
  | "name", .vstr x => { m with name := x }
  | "year", .vint n => { m with year := n }
  | "rating", .vrat q => { m with rating := q }
  | "rating", .vint n => { m with rating := (n : Rat) }
  | "user_id", .vint n => { m with user_id := n.toNat }
  | "director_id", .vint n => { m with director_id := some n.toNat }
  | "genre_id", .vint n => { m with genre_id := some n.toNat }
  | "id", .vint n => { m with id := n.toNat }
  | _, _ => m

/-- The `for key, value in fields.items(): if hasattr(movie, key):
setattr(movie, key, value)` loop of `update_movie`, one step per entry.
`hasattr` is true for the mapped columns, the relationship attributes and
SQLAlchemy class machinery (`query`, `metadata`, …): assigning to a mapped
scalar column records a value the commit will persist; assigning one of this
application's plain field values to an instrumented relationship attribute
(`genre`, `user`, `reviews` — `director` is popped before the loop) raises
inside the relationship machinery, aborting the call before commit; assigning
to a non-mapped class attribute only shadows it on the instance and persists
nothing; a key that is no attribute at all fails `hasattr` and is skipped —
the last two cases both leave the row unchanged. -/
def applyUpdateFields : Movie → List (String × FieldVal) → Except PyErr Movie
  | m, [] => .ok m
  | m, (k, v) :: rest =>
    if movieColumnKeys.contains k then applyUpdateFields (setColumn m k v) rest
    else if movieRelationshipKeys.contains k then
      .error (.attributeError
        ("cannot assign a plain value to relationship attribute " ++ k))
    else applyUpdateFields m rest

/-- `update_movie` (lines 139-166), exactly as written: `None` for a missing
movie; otherwise a `director` entry is popped and resolved through
`_get_or_create_director`, but the result is assigned to `movie.director_obj` —
a transient, unmapped attribute — so the movie's persisted `director_id` is NOT
changed (the resolved/created Director row itself IS committed); the remaining
entries go through the `hasattr`/`setattr` loop (`applyUpdateFields`); an
exception raised there propagates before the commit, leaving the committed
store unchanged; otherwise commit. -/
def update_movie (s : DBState) (movie_id : Nat)
    (fields : List (String × FieldVal)) : DBState × Except PyErr (Option Movie) :=
  match get_movie s movie_id with
  | none => (s, .ok none)
  | some movie =>
    let s1 :=
      if fields.any (fun kv => kv.1 == "director") then
        let dname :=
          match fields.find? (fun kv => kv.1 == "director") with
          | some (_, .vstr x) => x
          | _ => ""
        (_get_or_create_director s dname).1
      else s
    let rest := fields.filter (fun kv => kv.1 != "director")
    match applyUpdateFields movie rest with
    | .error e => (s, .error e)
    | .ok movie1 =>
      ({ s1 with
          movies := s1.movies.map (fun m => if m.id == movie_id then movie1 else m) },
       .ok (some movie1))

/-- `delete_movie` (lines 168-179): `False` when absent; otherwise
`session.delete(movie)` — which, per the `cascade="all, delete-orphan"`
declaration on `Movie.reviews` in `models.py`, also deletes the movie's
reviews — and commit. -/
def delete_movie (s : DBState) (movie_id : Nat) : DBState × Bool :=
  match get_movie s movie_id with
  | none => (s, false)
  | some _ =>
    ({ s with
        movies := s.movies.filter (fun m => m.id != movie_id),
        reviews := s.reviews.filter (fun r => r.movie_id != movie_id) }, true)

/-! ### Review methods (`sqlite_data_manager.py`, lines 193-237) -/

/-- `add_review`: always inserts a fresh row (no existence checks, no
de-duplication). -/
def add_review (s : DBState) (user_id : Nat) (movie_id : Nat)
    (review_text : String) (rating : Rat) : DBState × Review :=
  let r : Review := ⟨s.next_review_id, user_id, movie_id, review_text, rating⟩
  ({ s with
      reviews := s.reviews ++ [r],
      next_review_id := s.next_review_id + 1 }, r)

/-- `get_reviews_for_movie`. -/
def get_reviews_for_movie (s : DBState) (movie_id : Nat) : List Review :=
  s.reviews.filter (fun r => r.movie_id == movie_id)

/-- `get_reviews_for_user`. -/
def get_reviews_for_user (s : DBState) (user_id : Nat) : List Review :=
  s.reviews.filter (fun r => r.user_id == user_id)

/-- `delete_review`. -/
def delete_review (s : DBState) (review_id : Nat) : DBState × Bool :=
  match s.reviews.find? (fun r => r.id == review_id) with
  | none => (s, false)
  | some _ =>
    ({ s with reviews := s.reviews.filter (fun r => r.id != review_id) }, true)

/-! ### Schema-level cascade deletion (`models.py`)

No route or data-manager method deletes a User, Director or Genre; the
following functions embed what `session.delete` does on such an entity given
the relationship declarations in `models.py` (`cascade="all, delete-orphan"`
on `User.movies`, `User.reviews`, `Director.movies`, `Genre.movies` and
`Movie.reviews`). -/

/-- Deleting a User: its movies (and, through `Movie.reviews`, the reviews of
those movies) and its reviews are cascade-deleted. -/
def delete_user_cascade (s : DBState) (user_id : Nat) : DBState :=
  let ownedMovieIds := (s.movies.filter (fun m => m.user_id == user_id)).map (fun m => m.id)
  { s with
      users := s.users.filter (fun u => u.id != user_id),
      movies := s.movies.filter (fun m => m.user_id != user_id),
      reviews := s.reviews.filter
        (fun r => r.user_id != user_id && !(ownedMovieIds.contains r.movie_id)) }

/-- Deleting a Director: per the `cascade="all, delete-orphan"` declaration on
`Director.movies`, every movie referencing it is deleted, and those movies'
reviews with them. -/
def delete_director_cascade (s : DBState) (director_id : Nat) : DBState :=
  let ownedMovieIds :=
    (s.movies.filter (fun m => m.director_id == some director_id)).map (fun m => m.id)
  { s with
      directors := s.directors.filter (fun d => d.id != director_id),
      movies := s.movies.filter (fun m => m.director_id != some director_id),
      reviews := s.reviews.filter (fun r => !(ownedMovieIds.contains r.movie_id)) }

/-- Deleting a Genre: per the `cascade="all, delete-orphan"` declaration on
`Genre.movies`, every movie referencing it is deleted, and those movies'
reviews with them. -/
def delete_genre_cascade (s : DBState) (genre_id : Nat) : DBState :=
  let ownedMovieIds :=
    (s.movies.filter (fun m => m.genre_id == some genre_id)).map (fun m => m.id)
  { s with
      genres := s.genres.filter (fun g => g.id != genre_id),
      movies := s.movies.filter (fun m => m.genre_id != some genre_id),
      reviews := s.reviews.filter (fun r => !(ownedMovieIds.contains r.movie_id)) }

/-! ### Recommendation-text parsing (`services/ai_client.py`, lines 69-94) -/

/-- `ai_client.MovieRecommendation`. -/
structure MovieRecommendation where
  title : String
  reason : String
deriving Repr, DecidableEq

/-- Splitting at `'\n'`, Python-`splitlines` style: a trailing newline does not
produce a trailing empty line.  `cur` accumulates the current line reversed. -/
def pySplitlinesAux : List Char → List Char → List (List Char)
  | [], cur => [cur.reverse]
  | c :: rest, cur =>
    if c = '\n' then
      cur.reverse :: (match rest with | [] => [] | _ :: _ => pySplitlinesAux rest [])
    else pySplitlinesAux rest (c :: cur)

/-- Python `content.splitlines()` restricted to `"\n"` separators (the only
line break the generated text contains): a trailing newline does not produce a
trailing empty line, and an empty string has no lines. -/
def pySplitlines (s : String) : List String :=
  match s.data with
  | [] => []
  | l => (pySplitlinesAux l []).map (fun cs => ⟨cs⟩)

/-- The numbering-removal step of the parsing loop: when the line contains
`"."`, keep only what follows the first `"."`, stripped (`line.split(".", 1)`
then `strip`); otherwise the line is unchanged. -/
def pyNumStrip (line : String) : String :=
  match listSplitOnce ['.'] line.data with
  | some p => pyStrip ⟨p.2⟩
  | none => line

/-- The body of the parsing loop of `get_movie_recommendations`, per line:
strip the line; skip it entirely when blank; remove the list numbering
(everything up to and including the first `"."`); when the remainder contains
`" - "`, split at the first occurrence into stripped title and reason;
otherwise the whole remainder becomes the title with an empty reason. -/
def parseRecLine (l : String) : Option MovieRecommendation :=
  if pyStrip l = "" then none
  else
    match listSplitOnce [' ', '-', ' '] (pyNumStrip (pyStrip l)).data with
    | some p => some ⟨pyStrip ⟨p.1⟩, pyStrip ⟨p.2⟩⟩
    | none => some ⟨pyNumStrip (pyStrip l), ""⟩

/-- The `for line in content.splitlines()` loop of `get_movie_recommendations`,
appending each parsed record in order. -/
def parseRecLines : List String → List MovieRecommendation
  | [] => []
  | l :: rest =>
    match parseRecLine l with
    | none => parseRecLines rest
    | some r => r :: parseRecLines rest

/-- The parsing phase of `get_movie_recommendations`: from the generated
`content` text to the ordered recommendation list (the HTTP call producing
`content` is an external boundary and is not modelled). -/
def parse_recommendations (content : String) : List MovieRecommendation :=
  parseRecLines (pySplitlines content)

/-! ### Observation predicates used to state the claims -/

/-- Four consecutive decimal digits start at position `i` of `l`. -/
def digitRunAt (l : List Char) (i : Nat) : Bool :=
  decide (((l.drop i).take 4).length = 4) && ((l.drop i).take 4).all Char.isDigit

/-- The integer value of the four characters starting at position `i`. -/
def runValue (l : List Char) (i : Nat) : Nat :=
  digitsVal ((l.drop i).take 4)

/-! ## Supporting lemmas -/

theorem fourDigitsHere_eq (l : List Char) :
    fourDigitsHere l = if digitRunAt l 0 then some (runValue l 0) else none := by
  match l with
  | [] => rfl
  | [c1] => rfl
  | [c1, c2] => rfl
  | [c1, c2, c3] => rfl
  | c1 :: c2 :: c3 :: c4 :: t =>
    simp only [fourDigitsHere, digitRunAt, runValue, List.drop_zero, List.take,
      List.all_cons, List.all_nil, List.length_cons, List.length_nil]
    cases h1 : c1.isDigit <;> cases h2 : c2.isDigit <;> cases h3 : c3.isDigit <;>
      cases h4 : c4.isDigit <;> simp

theorem digitRunAt_cons (c : Char) (l : List Char) (i : Nat) :
    digitRunAt (c :: l) (i + 1) = digitRunAt l i := by
  simp [digitRunAt, List.drop_succ_cons]

theorem runValue_cons (c : Char) (l : List Char) (i : Nat) :
    runValue (c :: l) (i + 1) = runValue l i := by
  simp [runValue, List.drop_succ_cons]

theorem digitRunAt_of_ge (l : List Char) (i : Nat) (h : l.length ≤ i) :
    digitRunAt l i = false := by
  have hd : l.drop i = [] := List.drop_eq_nil_of_le h
  simp [digitRunAt, hd]

theorem searchFourDigits_eq_none (l : List Char)
    (h : ∀ i, digitRunAt l i = false) : searchFourDigits l = none := by
  induction l with
  | nil => rfl
  | cons c t ih =>
    rw [searchFourDigits, fourDigitsHere_eq, h 0]
    exact ih (fun i => by rw [← digitRunAt_cons c t i]; exact h (i + 1))

theorem searchFourDigits_eq_first (l : List Char) (i : Nat)
    (h : digitRunAt l i = true) (hmin : ∀ j, j < i → digitRunAt l j = false) :
    searchFourDigits l = some (runValue l i) := by
  induction l generalizing i with
  | nil =>
    exact absurd h (by simp [digitRunAt_of_ge [] i (by simp)])
  | cons c t ih =>
    rw [searchFourDigits, fourDigitsHere_eq]
    match i with
    | 0 => rw [h]; rfl
    | i' + 1 =>
      rw [hmin 0 (Nat.succ_pos i')]
      rw [runValue_cons]
      exact ih i' (by rw [← digitRunAt_cons c t i']; exact h)
        (fun j hj => by
          rw [← digitRunAt_cons c t j]
          exact hmin (j + 1) (Nat.succ_lt_succ hj))

theorem find?_append_of_none {α : Type} (p : α → Bool) (l1 l2 : List α)
    (h : l1.find? p = none) : (l1 ++ l2).find? p = l2.find? p := by
  induction l1 with
  | nil => simp
  | cons a t ih =>
    by_cases hp : p a
    · rw [List.find?_cons_of_pos _ hp] at h
      exact absurd h (by simp)
    · rw [List.find?_cons_of_neg _ hp] at h
      rw [List.cons_append, List.find?_cons_of_neg _ hp]
      exact ih h

theorem addMovieDirectorStep_found (s : DBState) (d : String) :
    (addMovieDirectorStep s d).1.directors.find? (fun x => x.name == d) =
      some (addMovieDirectorStep s d).2 := by
  unfold addMovieDirectorStep
  cases hf : s.directors.find? (fun x => x.name == d) with
  | some dd =>
    dsimp only
    exact hf
  | none =>
    show (s.directors ++ [(⟨s.next_director_id, d, none⟩ : Director)]).find?
      (fun x => x.name == d) = some (⟨s.next_director_id, d, none⟩ : Director)
    rw [find?_append_of_none _ _ _ hf]
    rw [List.find?_cons_of_pos _ (by simp)]

/-- Resolving the same director name a second time through `add_movie`'s
find-or-create step returns the identical Director and changes nothing: the
per-name idempotence the spec asserts, which `add_movie` as written can never
exhibit because the movie construction after this step raises. -/
theorem addMovieDirectorStep_idempotent (s : DBState) (d : String)
    (s2 : DBState) (dd : Director) (h : addMovieDirectorStep s d = (s2, dd)) :
    addMovieDirectorStep s2 d = (s2, dd) := by
  have hfound := addMovieDirectorStep_found s d
  rw [h] at hfound
  unfold addMovieDirectorStep
  rw [hfound]

theorem not_mem_of_contains_eq_false {l : List Nat} {a : Nat}
    (h : l.contains a = false) : a ∉ l := by
  intro hm
  rw [← List.elem_iff] at hm
  rw [show l.elem a = l.contains a from rfl, h] at hm
  exact Bool.noConfusion hm

theorem class_contains_of_column_contains (k : String)
    (h : movieColumnKeys.contains k = true) : movieClassAttrs.contains k = true := by
  have hm : k ∈ movieColumnKeys := List.elem_iff.mp h
  simp only [movieColumnKeys, List.mem_cons, List.not_mem_nil, or_false] at hm
  rcases hm with rfl | rfl | rfl | rfl | rfl | rfl | rfl <;> rfl

theorem class_contains_of_relationship_contains (k : String)
    (h : movieRelationshipKeys.contains k = true) :
    movieClassAttrs.contains k = true := by
  have hm : k ∈ movieRelationshipKeys := List.elem_iff.mp h
  simp only [movieRelationshipKeys, List.mem_cons, List.not_mem_nil, or_false] at hm
  rcases hm with rfl | rfl | rfl | rfl <;> rfl

theorem data_ne_nil_of_run {s : String} {i : Nat}
    (h : digitRunAt s.data i = true) : s ≠ "" := by
  intro hs
  subst hs
  have hfalse : digitRunAt "".data i = false := digitRunAt_of_ge _ _ (by simp)
  rw [h] at hfalse
  exact Bool.noConfusion hfalse

/-! ## Claims -/

/-- C6: for every input string, `parse_year` returns the integer value of the
first four-consecutive-digit substring, and returns 0 when the input is empty
or contains no four-consecutive-digit run; in particular
`parse_year "2013–2015" = 2013`, `parse_year "2013– " = 2013`,
`parse_year "" = 0` and `parse_year "no digits here" = 0`. -/
theorem C6_parse_year_first_four_digit_run (s : String) :
    ((∀ i < s.data.length, digitRunAt s.data i = false) → parse_year s = 0)
    ∧ (∀ i, digitRunAt s.data i = true → (∀ j < i, digitRunAt s.data j = false) →
        parse_year s = (runValue s.data i : Int))
    ∧ parse_year "2013–2015" = 2013 ∧ parse_year "2013– " = 2013
    ∧ parse_year "" = 0 ∧ parse_year "no digits here" = 0 := by
  refine ⟨?_, ?_, by decide, by decide, by decide, by decide⟩
  · intro h
    have hall : ∀ i, digitRunAt s.data i = false := by
      intro i
      by_cases hi : i < s.data.length
      · exact h i hi
      · exact digitRunAt_of_ge _ _ (Nat.le_of_not_lt hi)
    unfold parse_year
    rw [searchFourDigits_eq_none s.data hall]
    split <;> rfl
  · intro i h hmin
    have hs : s ≠ "" := data_ne_nil_of_run h
    unfold parse_year
    rw [if_neg hs, searchFourDigits_eq_first s.data i h hmin]

/-- Witness for C6 at concrete inputs: `"ab2013x"` has its first (and only)
four-digit run at position 2, and `"abc"` has none. -/
theorem C6_parse_year_first_four_digit_run_witness :
    parse_year "ab2013x" = 2013 ∧ parse_year "abc" = 0 := by
  constructor
  · have h := (C6_parse_year_first_four_digit_run "ab2013x").2.1 2 (by decide) (by decide)
    rw [h]; decide
  · exact (C6_parse_year_first_four_digit_run "abc").1 (by decide)

/-- C3: for every `user_id` that does not correspond to an existing User,
`add_movie` fails with the reference error raised at its user-existence check
(Python raises `ValueError("User with id … does not exist")`) and the
committed store is unchanged by the failed call. -/
theorem C3_add_movie_unknown_user_fails (s : DBState) (user_id : Nat)
    (name director : String) (year : Int) (rating : Rat)
    (poster_url genre : Option String) (h : get_user s user_id = none) :
    add_movie s user_id name director year rating poster_url genre =
      (s, .error (.valueError
        ("User with id " ++ toString user_id ++ " does not exist"))) := by
  unfold add_movie
  rw [h]

/-- Witness for C3: the empty database has no user 1, and `add_movie` fails on
it leaving the store unchanged. -/
theorem C3_add_movie_unknown_user_fails_witness :
    get_user DBState.empty 1 = none ∧
    add_movie DBState.empty 1 "Inception" "Christopher Nolan" 2010 (8.8 : Rat)
        none none =
      (DBState.empty, .error (.valueError "User with id 1 does not exist")) := by
  refine ⟨by decide, ?_⟩
  have h := C3_add_movie_unknown_user_fails DBState.empty 1 "Inception"
    "Christopher Nolan" 2010 (8.8 : Rat) none none (by decide)
  rw [h]
  rfl

/-- C1 (code bug): the end-to-end creation scenario does not complete.
`add_user "Lina"` persists user 1, but `add_movie(1, "Inception",
"Christopher Nolan", 2010, 8.8)` raises `TypeError` — the method passes a
`poster_url` keyword to the `Movie` constructor although the `Movie` model
declares no `poster_url` column — so no movie is ever persisted and the user's
movie list stays empty, contradicting the method's own docstring, the routes
and the tests. -/
theorem C1_add_movie_scenario_raises_type_error :
    add_user DBState.empty "Lina" =
      (⟨[⟨1, "Lina"⟩], [], [], [], [], 2, 1, 1, 1, 1⟩, ⟨1, "Lina"⟩)
    ∧ add_movie ⟨[⟨1, "Lina"⟩], [], [], [], [], 2, 1, 1, 1, 1⟩ 1 "Inception"
        "Christopher Nolan" 2010 (8.8 : Rat) none none =
      (⟨[⟨1, "Lina"⟩], [], [], [], [], 2, 1, 1, 1, 1⟩,
       .error (.typeError "poster_url is an invalid keyword argument for Movie"))
    ∧ get_user_movies ⟨[⟨1, "Lina"⟩], [], [], [], [], 2, 1, 1, 1, 1⟩ 1 = [] :=
  ⟨rfl, rfl, rfl⟩

/-- C5 (code bug): the per-name idempotence of find-or-create cannot be
observed through `add_movie`, because every `add_movie` call raises `TypeError`
(the `poster_url` keyword, see C1) before committing: two calls with the same
director name both fail, persist no Movie and no Director, so no two Movies
referencing the identical Director result.  (The slip-corrected
`add_movie_fixed` does satisfy the claimed idempotence; its persistence logic
matches the JSON API route `api_add_movie` in `api.py`, which omits
`poster_url` and succeeds.) -/
theorem C5_add_movie_same_director_both_calls_fail :
    add_movie ⟨[⟨1, "Lina"⟩], [], [], [], [], 2, 1, 1, 1, 1⟩ 1 "Inception"
        "Christopher Nolan" 2010 (8.8 : Rat) none none =
      (⟨[⟨1, "Lina"⟩], [], [], [], [], 2, 1, 1, 1, 1⟩,
       .error (.typeError "poster_url is an invalid keyword argument for Movie"))
    ∧ add_movie ⟨[⟨1, "Lina"⟩], [], [], [], [], 2, 1, 1, 1, 1⟩ 1 "Tenet"
        "Christopher Nolan" 2020 (7.3 : Rat) none none =
      (⟨[⟨1, "Lina"⟩], [], [], [], [], 2, 1, 1, 1, 1⟩,
       .error (.typeError "poster_url is an invalid keyword argument for Movie"))
    ∧ (⟨[⟨1, "Lina"⟩], [], [], [], [], 2, 1, 1, 1, 1⟩ : DBState).movies = [] :=
  ⟨rfl, rfl, rfl⟩

/-- C2 (code bug): `update_movie` with a `director` name resolves (and here
creates and commits) the Director row "New", but assigns it to
`movie.director_obj` — a transient, unmapped attribute — instead of the mapped
`movie.director` relationship, so the movie's persisted `director_id` still
points at the old Director row 1 after the call, contradicting the method's
own docstring example and comment. -/
theorem C2_update_movie_director_not_relinked :
    update_movie
        ⟨[⟨1, "Lina"⟩], [⟨1, "Old", none⟩], [],
         [⟨1, "M", some 1, none, 2000, (7 : Rat), 1⟩], [], 2, 2, 1, 2, 1⟩
        1 [("director", .vstr "New")] =
      (⟨[⟨1, "Lina"⟩], [⟨1, "Old", none⟩, ⟨2, "New", none⟩], [],
        [⟨1, "M", some 1, none, 2000, (7 : Rat), 1⟩], [], 2, 3, 1, 2, 1⟩,
       .ok (some ⟨1, "M", some 1, none, 2000, (7 : Rat), 1⟩))
    ∧ ((update_movie
        ⟨[⟨1, "Lina"⟩], [⟨1, "Old", none⟩], [],
         [⟨1, "M", some 1, none, 2000, (7 : Rat), 1⟩], [], 2, 2, 1, 2, 1⟩
        1 [("director", .vstr "New")]).1.movies.map (fun m => m.director_id)) =
      [some 1]
    ∧ ((update_movie
        ⟨[⟨1, "Lina"⟩], [⟨1, "Old", none⟩], [],
         [⟨1, "M", some 1, none, 2000, (7 : Rat), 1⟩], [], 2, 2, 1, 2, 1⟩
        1 [("director", .vstr "New")]).1.directors.map (fun d => d.name)) =
      ["Old", "New"] :=
  ⟨rfl, rfl, rfl⟩

theorem parseRecLines_eq_filterMap (ls : List String) :
    parseRecLines ls = ls.filterMap parseRecLine := by
  induction ls with
  | nil => rfl
  | cons l rest ih =>
    simp only [parseRecLines, List.filterMap_cons]
    cases h : parseRecLine l <;> simp [h, ih]

theorem parseRecLine_none_iff (l : String) :
    parseRecLine l = none ↔ pyStrip l = "" := by
  unfold parseRecLine
  by_cases h : pyStrip l = ""
  · simp [h]
  · rw [if_neg h]
    cases hs : listSplitOnce [' ', '-', ' '] (pyNumStrip (pyStrip l)).data <;>
      simp [h]

/-- C9 (corrected): the recommendation-parsing loop preserves input line order
and never raises (it equals a per-line `filterMap`), but it is not total over
lines: exactly the lines that are blank after stripping are dropped, and a
non-matching line is degraded to the line with its numbering prefix (everything
up to and including the first `"."`) removed — not to the whole line — as the
title, with an empty reason.  The concrete run shows order preservation,
the `"title - reason"` split, the degraded no-reason line, and the dropped
blank line. -/
theorem C9_recommendation_parsing_best_effort (content : String) (l : String) :
    parse_recommendations content = (pySplitlines content).filterMap parseRecLine
    ∧ (parseRecLine l = none ↔ pyStrip l = "")
    ∧ parse_recommendations "1. Interstellar - mind-bending\n2. Heat\n\nNo reason given" =
        [⟨"Interstellar", "mind-bending"⟩, ⟨"Heat", ""⟩, ⟨"No reason given", ""⟩] :=
  ⟨parseRecLines_eq_filterMap (pySplitlines content),
   parseRecLine_none_iff l, by decide⟩

/-- Counterexample for C9 as stated: the line `"Just a title."` does not match
the `"title - reason"` shape, and the code degrades it to the empty title
(everything up to and including the first `"."` is removed), not to the whole
line; and a blank line is dropped rather than kept, so three input lines yield
two records. -/
theorem C9_recommendation_parsing_counterexample :
    parse_recommendations "Just a title." = [⟨"", ""⟩]
    ∧ parse_recommendations "Just a title." ≠ [⟨"Just a title.", ""⟩]
    ∧ (parse_recommendations "a - b\n\nc - d").length = 2 := by
  refine ⟨by decide, by decide, by decide⟩

theorem addMovieDirectorStep_spec (s : DBState) (director : String) :
    (addMovieDirectorStep s director).2.name = director
    ∧ (addMovieDirectorStep s director).2 ∈ (addMovieDirectorStep s director).1.directors
    ∧ ((addMovieDirectorStep s director).2 ∈ s.directors
        ∨ (addMovieDirectorStep s director).2.id = s.next_director_id)
    ∧ (addMovieDirectorStep s director).1.users = s.users
    ∧ (addMovieDirectorStep s director).1.movies = s.movies := by
  unfold addMovieDirectorStep
  cases hf : s.directors.find? (fun d => d.name == director) with
  | none => simp
  | some d =>
    have hname : d.name = director := by
      have hp := List.find?_some hf
      simpa using hp
    have hmem : d ∈ s.directors := List.mem_of_find?_eq_some hf
    simp [hname, hmem]

theorem addMovieGenreStep_frame (s : DBState) (genre : Option String) :
    (addMovieGenreStep s genre).1.users = s.users
    ∧ (addMovieGenreStep s genre).1.directors = s.directors
    ∧ (addMovieGenreStep s genre).1.movies = s.movies := by
  unfold addMovieGenreStep
  cases genre with
  | none => simp
  | some g =>
    dsimp only
    by_cases hg : g = ""
    · simp [hg]
    · rw [if_pos hg]
      cases hf : s.genres.find? (fun x => x.name == g) <;> simp

/-- C4 (amended): the trim-then-lookup policy with empty-name opt-out is
implemented only by `_get_or_create_director`, which only `update_movie` uses.
`add_movie` resolves the director by the raw untrimmed string (creating a row
even for an empty or whitespace-only name) and the genre by the raw string,
skipping creation only when the genre argument is absent or the empty string
(no trimming). -/
theorem C4_trim_policy_helper_only (s : DBState) (dname : String) (uid : Nat)
    (n d : String) (y : Int) (r : Rat) (g : Option String) (t : DBState)
    (m : Movie) :
    (pyStrip dname = "" → _get_or_create_director s dname = (s, none))
    ∧ (pyStrip dname ≠ "" → ∃ dir, (_get_or_create_director s dname).2 = some dir
        ∧ dir.name = pyStrip dname
        ∧ (dir ∈ s.directors ∨ dir.id = s.next_director_id))
    ∧ (add_movie_fixed s uid n d y r g = (t, .ok m) →
        ∃ dir, dir ∈ t.directors ∧ dir.name = d ∧ m.director_id = some dir.id)
    ∧ addMovieGenreStep s (some "") = (s, none)
    ∧ (∀ gs : String, gs ≠ "" → ∃ x, (addMovieGenreStep s (some gs)).2 = some x
        ∧ x.name = gs ∧ (x ∈ s.genres ∨ x.id = s.next_genre_id)) := by
  refine ⟨?_, ?_, ?_, ?_, ?_⟩
  · intro h
    unfold _get_or_create_director
    rw [if_pos h]
  · intro h
    unfold _get_or_create_director
    rw [if_neg h]
    cases hf : s.directors.find? (fun x => x.name == pyStrip dname) with
    | some dir =>
      have hname : dir.name = pyStrip dname := by
        have hp := List.find?_some hf
        simpa using hp
      exact ⟨dir, rfl, hname, Or.inl (List.mem_of_find?_eq_some hf)⟩
    | none =>
      exact ⟨⟨s.next_director_id, pyStrip dname, none⟩, rfl, rfl, Or.inr rfl⟩
  · intro h
    unfold add_movie_fixed at h
    cases hu : get_user s uid <;> rw [hu] at h
    · exact absurd (congrArg (fun p => p.2) h) (by simp)
    · rw [Prod.ext_iff] at h
      obtain ⟨ht, hm⟩ := h
      dsimp only at ht hm
      rw [Except.ok.injEq] at hm
      subst ht
      subst hm
      refine ⟨(addMovieDirectorStep s d).2, ?_, (addMovieDirectorStep_spec s d).1, rfl⟩
      show (addMovieDirectorStep s d).2 ∈
        (addMovieGenreStep (addMovieDirectorStep s d).1 g).1.directors
      rw [(addMovieGenreStep_frame (addMovieDirectorStep s d).1 g).2.1]
      exact (addMovieDirectorStep_spec s d).2.1
  · rfl
  · intro gs hgs
    unfold addMovieGenreStep
    dsimp only
    rw [if_pos hgs]
    cases hf : s.genres.find? (fun x => x.name == gs) with
    | some x =>
      have hname : x.name = gs := by
        have hp := List.find?_some hf
        simpa using hp
      exact ⟨x, rfl, hname, Or.inl (List.mem_of_find?_eq_some hf)⟩
    | none =>
      exact ⟨⟨s.next_genre_id, gs⟩, rfl, rfl, Or.inr rfl⟩

/-- Witness for C4 (amended) at concrete inputs: a whitespace-only name gives
no director and no row; `" Nolan "` resolves through its stripped form; a
successful `add_movie_fixed` run links a director carrying the raw name
`" D "`; an empty genre string creates nothing; `"Sci-Fi"` resolves raw. -/
theorem C4_trim_policy_helper_only_witness :
    _get_or_create_director DBState.empty "   " = (DBState.empty, none)
    ∧ (∃ dir, (_get_or_create_director DBState.empty " Nolan ").2 = some dir
        ∧ dir.name = pyStrip " Nolan "
        ∧ (dir ∈ DBState.empty.directors ∨ dir.id = DBState.empty.next_director_id))
    ∧ (∃ dir,
        dir ∈ (⟨[⟨1, "Lina"⟩], [⟨1, " D ", none⟩], [],
          [⟨1, "M", some 1, none, 2000, (7 : Rat), 1⟩], [], 2, 2, 1, 2, 1⟩ :
            DBState).directors
        ∧ dir.name = " D "
        ∧ (⟨1, "M", some 1, none, 2000, (7 : Rat), 1⟩ : Movie).director_id =
            some dir.id)
    ∧ addMovieGenreStep DBState.empty (some "") = (DBState.empty, none)
    ∧ (∃ x, (addMovieGenreStep DBState.empty (some "Sci-Fi")).2 = some x
        ∧ x.name = "Sci-Fi"
        ∧ (x ∈ DBState.empty.genres ∨ x.id = DBState.empty.next_genre_id)) := by
  refine ⟨?_, ?_, ?_, ?_, ?_⟩
  · exact (C4_trim_policy_helper_only DBState.empty "   " 1 "M" " D " 2000 (7 : Rat)
      none DBState.empty ⟨1, "M", some 1, none, 2000, (7 : Rat), 1⟩).1 (by decide)
  · exact (C4_trim_policy_helper_only DBState.empty " Nolan " 1 "M" " D " 2000 (7 : Rat)
      none DBState.empty ⟨1, "M", some 1, none, 2000, (7 : Rat), 1⟩).2.1 (by decide)
  · exact (C4_trim_policy_helper_only
      ⟨[⟨1, "Lina"⟩], [], [], [], [], 2, 1, 1, 1, 1⟩ " Nolan " 1 "M" " D " 2000
      (7 : Rat) none
      ⟨[⟨1, "Lina"⟩], [⟨1, " D ", none⟩], [],
        [⟨1, "M", some 1, none, 2000, (7 : Rat), 1⟩], [], 2, 2, 1, 2, 1⟩
      ⟨1, "M", some 1, none, 2000, (7 : Rat), 1⟩).2.2.1 rfl
  · exact (C4_trim_policy_helper_only DBState.empty " Nolan " 1 "M" " D " 2000 (7 : Rat)
      none DBState.empty ⟨1, "M", some 1, none, 2000, (7 : Rat), 1⟩).2.2.2.1
  · exact (C4_trim_policy_helper_only DBState.empty " Nolan " 1 "M" " D " 2000 (7 : Rat)
      none DBState.empty ⟨1, "M", some 1, none, 2000, (7 : Rat), 1⟩).2.2.2.2
      "Sci-Fi" (by decide)

/-- Counterexample for C4 as stated: with director row 1 named `"Nolan"`
present, `add_movie` with the padded name `"  Nolan  "` does not resolve it by
its trimmed form — the call as written raises (no movie, no resolution), and
even with the constructor slip corrected the lookup uses the raw string,
creating a second row named `"  Nolan  "` and linking the movie to it instead
of to row 1; and an empty director name still creates a Director row instead
of resolving to an absent reference. -/
theorem C4_trim_policy_counterexample :
    add_movie ⟨[⟨1, "Lina"⟩], [⟨1, "Nolan", none⟩], [], [], [], 2, 2, 1, 1, 1⟩ 1
        "Interstellar" "  Nolan  " 2014 (8.6 : Rat) none none =
      (⟨[⟨1, "Lina"⟩], [⟨1, "Nolan", none⟩], [], [], [], 2, 2, 1, 1, 1⟩,
       .error (.typeError "poster_url is an invalid keyword argument for Movie"))
    ∧ add_movie_fixed ⟨[⟨1, "Lina"⟩], [⟨1, "Nolan", none⟩], [], [], [], 2, 2, 1, 1, 1⟩ 1
        "Interstellar" "  Nolan  " 2014 (8.6 : Rat) none =
      (⟨[⟨1, "Lina"⟩], [⟨1, "Nolan", none⟩, ⟨2, "  Nolan  ", none⟩], [],
        [⟨1, "Interstellar", some 2, none, 2014, (8.6 : Rat), 1⟩], [], 2, 3, 1, 2, 1⟩,
       .ok ⟨1, "Interstellar", some 2, none, 2014, (8.6 : Rat), 1⟩)
    ∧ (add_movie_fixed ⟨[⟨1, "Lina"⟩], [], [], [], [], 2, 1, 1, 1, 1⟩ 1 "M" "" 2000
        (5 : Rat) none).1.directors = [⟨1, "", none⟩] :=
  ⟨rfl, rfl, rfl⟩

/-- C7: `update_movie` is partial and frame-preserving.  Updating only
`rating` replaces exactly the target movie's rating, leaving its name, year
and director reference and every other table of the store unchanged; a field
whose key is not an attribute of the `Movie` entity is silently ignored,
writing nothing; an unknown movie id returns `None` and performs no write at
all. -/
theorem C7_update_movie_partial_frame (s : DBState) (mid mid2 : Nat)
    (m0 : Movie) (q : Rat) (key : String) (v : FieldVal) :
    (get_movie s mid = some m0 →
      update_movie s mid [("rating", .vrat q)] =
        ({ s with movies :=
            s.movies.map (fun m => if m.id == mid then { m0 with rating := q } else m) },
         .ok (some { m0 with rating := q })))
    ∧ (get_movie s mid = some m0 → movieClassAttrs.contains key = false →
      update_movie s mid [(key, v)] =
        ({ s with movies :=
            s.movies.map (fun m => if m.id == mid then m0 else m) },
         .ok (some m0)))
    ∧ (get_movie s mid2 = none →
        ∀ fs : List (String × FieldVal), update_movie s mid2 fs = (s, .ok none)) := by
  refine ⟨?_, ?_, ?_⟩
  · intro h
    unfold update_movie
    rw [h]
    rfl
  · intro h hclass
    have hdir : (key == "director") = false := by
      cases hkd : key == "director"
      · rfl
      · have hkey : key = "director" := by simpa using hkd
        subst hkey
        rw [show movieClassAttrs.contains "director" = true from rfl] at hclass
        exact Bool.noConfusion hclass
    have hcol : movieColumnKeys.contains key = false := by
      cases hc : movieColumnKeys.contains key
      · rfl
      · rw [class_contains_of_column_contains key hc] at hclass
        exact Bool.noConfusion hclass
    have hrel : movieRelationshipKeys.contains key = false := by
      cases hc : movieRelationshipKeys.contains key
      · rfl
      · rw [class_contains_of_relationship_contains key hc] at hclass
        exact Bool.noConfusion hclass
    unfold update_movie
    rw [h]
    have hany : [(key, v)].any (fun kv => kv.1 == "director") = false := by
      simp [hdir]
    have hfil : [(key, v)].filter (fun kv => kv.1 != "director") = [(key, v)] := by
      simp [List.filter_cons, bne, hdir]
    rw [hany, hfil]
    dsimp only
    have happ : applyUpdateFields m0 [(key, v)] = .ok m0 := by
      simp only [applyUpdateFields, hcol, hrel]
      rfl
    rw [happ]
    rfl
  · intro h fs
    unfold update_movie
    rw [h]

/-- Witness for C7 at a concrete store: a rating-only update rewrites only the
rating, an unrecognized `imdb_link` field writes nothing, and an unknown id 99
is a no-op returning `None`. -/
theorem C7_update_movie_partial_frame_witness :
    (update_movie ⟨[⟨1, "Lina"⟩], [⟨1, "N", none⟩], [],
        [⟨1, "M", some 1, none, 2000, (7 : Rat), 1⟩], [], 2, 2, 1, 2, 1⟩
      1 [("rating", .vrat 9)]).2 =
        .ok (some ⟨1, "M", some 1, none, 2000, (9 : Rat), 1⟩)
    ∧ update_movie ⟨[⟨1, "Lina"⟩], [⟨1, "N", none⟩], [],
        [⟨1, "M", some 1, none, 2000, (7 : Rat), 1⟩], [], 2, 2, 1, 2, 1⟩
      1 [("imdb_link", .vstr "x")] =
        (⟨[⟨1, "Lina"⟩], [⟨1, "N", none⟩], [],
          [⟨1, "M", some 1, none, 2000, (7 : Rat), 1⟩], [], 2, 2, 1, 2, 1⟩,
         .ok (some ⟨1, "M", some 1, none, 2000, (7 : Rat), 1⟩))
    ∧ update_movie ⟨[⟨1, "Lina"⟩], [⟨1, "N", none⟩], [],
        [⟨1, "M", some 1, none, 2000, (7 : Rat), 1⟩], [], 2, 2, 1, 2, 1⟩
      99 [("rating", .vrat 9)] =
        (⟨[⟨1, "Lina"⟩], [⟨1, "N", none⟩], [],
          [⟨1, "M", some 1, none, 2000, (7 : Rat), 1⟩], [], 2, 2, 1, 2, 1⟩,
         .ok none) := by
  refine ⟨?_, ?_, ?_⟩
  · have h := (C7_update_movie_partial_frame
      ⟨[⟨1, "Lina"⟩], [⟨1, "N", none⟩], [],
        [⟨1, "M", some 1, none, 2000, (7 : Rat), 1⟩], [], 2, 2, 1, 2, 1⟩
      1 99 ⟨1, "M", some 1, none, 2000, (7 : Rat), 1⟩ 9 "imdb_link"
      (.vstr "x")).1 rfl
    rw [h]
  · have h := (C7_update_movie_partial_frame
      ⟨[⟨1, "Lina"⟩], [⟨1, "N", none⟩], [],
        [⟨1, "M", some 1, none, 2000, (7 : Rat), 1⟩], [], 2, 2, 1, 2, 1⟩
      1 99 ⟨1, "M", some 1, none, 2000, (7 : Rat), 1⟩ 9 "imdb_link"
      (.vstr "x")).2.1 rfl (by decide)
    rw [h]
    rfl
  · have h := (C7_update_movie_partial_frame
      ⟨[⟨1, "Lina"⟩], [⟨1, "N", none⟩], [],
        [⟨1, "M", some 1, none, 2000, (7 : Rat), 1⟩], [], 2, 2, 1, 2, 1⟩
      1 99 ⟨1, "M", some 1, none, 2000, (7 : Rat), 1⟩ 9 "imdb_link"
      (.vstr "x")).2.2 rfl [("rating", .vrat 9)]
    rw [h]

/-- C8 (amended): the declared cascades hold — deleting a User leaves no
Movie and no Review referencing it (including the reviews of its movies), and
deleting an existing Movie leaves no Review referencing it — and every movie
created by a successful `add_movie` references an existing User at creation
time.  The further claim that every reachable state keeps `user_id` pointing
at an existing User fails: `update_movie` accepts a `user_id` field and
relinks it without any existence check (see the counterexample). -/
theorem C8_user_movie_cascades_and_ownership (s : DBState) (uid mid : Nat) :
    (∀ m ∈ (delete_user_cascade s uid).movies, m.user_id ≠ uid)
    ∧ (∀ r ∈ (delete_user_cascade s uid).reviews, r.user_id ≠ uid)
    ∧ (∀ m ∈ s.movies, m.user_id = uid →
        ∀ r ∈ (delete_user_cascade s uid).reviews, r.movie_id ≠ m.id)
    ∧ (∀ m0 : Movie, get_movie s mid = some m0 →
        ∀ r ∈ (delete_movie s mid).1.reviews, r.movie_id ≠ mid)
    ∧ (∀ (uid2 : Nat) (n d : String) (y : Int) (rt : Rat) (g : Option String)
        (t : DBState) (m : Movie),
        add_movie_fixed s uid2 n d y rt g = (t, .ok m) →
        (get_user t m.user_id).isSome = true) := by
  refine ⟨?_, ?_, ?_, ?_, ?_⟩
  · intro m hm
    have hm2 : m ∈ s.movies.filter (fun mm => mm.user_id != uid) := hm
    have hp := (List.mem_filter.mp hm2).2
    simpa using hp
  · intro r hr
    have hr2 : r ∈ s.reviews.filter (fun rr => rr.user_id != uid &&
        !(((s.movies.filter (fun mm => mm.user_id == uid)).map
            (fun mm => mm.id)).contains rr.movie_id)) := hr
    have hp := (List.mem_filter.mp hr2).2
    rw [Bool.and_eq_true] at hp
    simpa using hp.1
  · intro m hm hmu r hr hcontra
    have hr2 : r ∈ s.reviews.filter (fun rr => rr.user_id != uid &&
        !(((s.movies.filter (fun mm => mm.user_id == uid)).map
            (fun mm => mm.id)).contains rr.movie_id)) := hr
    have hp := (List.mem_filter.mp hr2).2
    rw [Bool.and_eq_true] at hp
    have h2 := hp.2
    simp only [Bool.not_eq_eq_eq_not, Bool.not_true] at h2
    apply not_mem_of_contains_eq_false h2
    rw [hcontra]
    exact List.mem_map_of_mem _ (List.mem_filter.mpr ⟨hm, by simp [hmu]⟩)
  · intro m0 h r hr
    have hr2 : r ∈ (delete_movie s mid).1.reviews := hr
    unfold delete_movie at hr2
    rw [h] at hr2
    have hr3 : r ∈ s.reviews.filter (fun rr => rr.movie_id != mid) := hr2
    have hp := (List.mem_filter.mp hr3).2
    simpa using hp
  · intro uid2 n d y rt g t m h
    unfold add_movie_fixed at h
    cases hu : get_user s uid2 <;> rw [hu] at h
    · exact absurd (congrArg (fun p => p.2) h) (by simp)
    · rw [Prod.ext_iff] at h
      obtain ⟨ht, hm⟩ := h
      dsimp only at ht hm
      rw [Except.ok.injEq] at hm
      subst ht
      subst hm
      show (get_user
        (addMovieGenreStep (addMovieDirectorStep s d).1 g).1 uid2).isSome = true
      unfold get_user
      rw [(addMovieGenreStep_frame (addMovieDirectorStep s d).1 g).1,
        (addMovieDirectorStep_spec s d).2.2.2.1]
      have hfind : s.users.find? (fun u => u.id == uid2) = some _ := hu
      rw [hfind]
      rfl

/-- Witness for C8 (amended) at a concrete store with two users: after
deleting user 1, the surviving movie and review belong to user 2 and do not
reference user 1 or its movie; after deleting movie 1, the surviving review
references movie 2; and a freshly added movie's owner exists. -/
theorem C8_user_movie_cascades_and_ownership_witness :
    (⟨2, "B", none, none, 2001, (6 : Rat), 2⟩ : Movie).user_id ≠ 1
    ∧ (⟨2, 2, 2, "u", (5 : Rat)⟩ : Review).user_id ≠ 1
    ∧ (⟨2, 2, 2, "u", (5 : Rat)⟩ : Review).movie_id ≠
        (⟨1, "A", some 1, none, 2000, (5 : Rat), 1⟩ : Movie).id
    ∧ (⟨2, 2, 2, "u", (5 : Rat)⟩ : Review).movie_id ≠ 1
    ∧ (get_user
        ⟨[⟨1, "Lina"⟩, ⟨2, "Bob"⟩], [⟨1, "N", none⟩, ⟨2, "D", none⟩], [],
          [⟨1, "A", some 1, none, 2000, (5 : Rat), 1⟩,
           ⟨2, "B", none, none, 2001, (6 : Rat), 2⟩,
           ⟨3, "M", some 2, none, 2000, (7 : Rat), 1⟩],
          [⟨1, 1, 1, "t", (5 : Rat)⟩, ⟨2, 2, 2, "u", (5 : Rat)⟩], 3, 3, 1, 4, 3⟩
        (⟨3, "M", some 2, none, 2000, (7 : Rat), 1⟩ : Movie).user_id).isSome
      = true := by
  refine ⟨?_, ?_, ?_, ?_, ?_⟩
  · exact (C8_user_movie_cascades_and_ownership
      ⟨[⟨1, "Lina"⟩, ⟨2, "Bob"⟩], [⟨1, "N", none⟩], [],
        [⟨1, "A", some 1, none, 2000, (5 : Rat), 1⟩,
         ⟨2, "B", none, none, 2001, (6 : Rat), 2⟩],
        [⟨1, 1, 1, "t", (5 : Rat)⟩, ⟨2, 2, 2, "u", (5 : Rat)⟩], 3, 2, 1, 3, 3⟩
      1 1).1 ⟨2, "B", none, none, 2001, (6 : Rat), 2⟩ (by decide)
  · exact (C8_user_movie_cascades_and_ownership
      ⟨[⟨1, "Lina"⟩, ⟨2, "Bob"⟩], [⟨1, "N", none⟩], [],
        [⟨1, "A", some 1, none, 2000, (5 : Rat), 1⟩,
         ⟨2, "B", none, none, 2001, (6 : Rat), 2⟩],
        [⟨1, 1, 1, "t", (5 : Rat)⟩, ⟨2, 2, 2, "u", (5 : Rat)⟩], 3, 2, 1, 3, 3⟩
      1 1).2.1 ⟨2, 2, 2, "u", (5 : Rat)⟩ (by decide)
  · exact (C8_user_movie_cascades_and_ownership
      ⟨[⟨1, "Lina"⟩, ⟨2, "Bob"⟩], [⟨1, "N", none⟩], [],
        [⟨1, "A", some 1, none, 2000, (5 : Rat), 1⟩,
         ⟨2, "B", none, none, 2001, (6 : Rat), 2⟩],
        [⟨1, 1, 1, "t", (5 : Rat)⟩, ⟨2, 2, 2, "u", (5 : Rat)⟩], 3, 2, 1, 3, 3⟩
      1 1).2.2.1 ⟨1, "A", some 1, none, 2000, (5 : Rat), 1⟩ (by decide) rfl
      ⟨2, 2, 2, "u", (5 : Rat)⟩ (by decide)
  · exact (C8_user_movie_cascades_and_ownership
      ⟨[⟨1, "Lina"⟩, ⟨2, "Bob"⟩], [⟨1, "N", none⟩], [],
        [⟨1, "A", some 1, none, 2000, (5 : Rat), 1⟩,
         ⟨2, "B", none, none, 2001, (6 : Rat), 2⟩],
        [⟨1, 1, 1, "t", (5 : Rat)⟩, ⟨2, 2, 2, "u", (5 : Rat)⟩], 3, 2, 1, 3, 3⟩
      1 1).2.2.2.1 ⟨1, "A", some 1, none, 2000, (5 : Rat), 1⟩ rfl
      ⟨2, 2, 2, "u", (5 : Rat)⟩ (by decide)
  · exact (C8_user_movie_cascades_and_ownership
      ⟨[⟨1, "Lina"⟩, ⟨2, "Bob"⟩], [⟨1, "N", none⟩], [],
        [⟨1, "A", some 1, none, 2000, (5 : Rat), 1⟩,
         ⟨2, "B", none, none, 2001, (6 : Rat), 2⟩],
        [⟨1, 1, 1, "t", (5 : Rat)⟩, ⟨2, 2, 2, "u", (5 : Rat)⟩], 3, 2, 1, 3, 3⟩
      1 1).2.2.2.2 1 "M" "D" 2000 (7 : Rat) none
      ⟨[⟨1, "Lina"⟩, ⟨2, "Bob"⟩], [⟨1, "N", none⟩, ⟨2, "D", none⟩], [],
        [⟨1, "A", some 1, none, 2000, (5 : Rat), 1⟩,
         ⟨2, "B", none, none, 2001, (6 : Rat), 2⟩,
         ⟨3, "M", some 2, none, 2000, (7 : Rat), 1⟩],
        [⟨1, 1, 1, "t", (5 : Rat)⟩, ⟨2, 2, 2, "u", (5 : Rat)⟩], 3, 3, 1, 4, 3⟩
      ⟨3, "M", some 2, none, 2000, (7 : Rat), 1⟩ rfl

/-- Counterexample for C8 as stated: starting from the empty store,
`add_user "Lina"` then a successful movie insertion for user 1 (the JSON API
persistence path, `add_movie_fixed`) then
`update_movie(1, user_id=2)` produces a reachable state whose only movie has
`user_id = 2` while no user 2 exists — `update_movie` relinks `user_id`
without any existence check (and SQLite does not enforce foreign keys by
default), so the ownership invariant is not maintained. -/
theorem C8_ownership_invariant_counterexample :
    ((update_movie ((add_movie_fixed ((add_user DBState.empty "Lina").1) 1 "Inception"
          "Christopher Nolan" 2010 (8.8 : Rat) none).1) 1
        [("user_id", .vint 2)]).1.movies.map (fun m => m.user_id)) = [2]
    ∧ get_user ((update_movie ((add_movie_fixed ((add_user DBState.empty "Lina").1) 1
          "Inception" "Christopher Nolan" 2010 (8.8 : Rat) none).1) 1
        [("user_id", .vint 2)]).1) 2 = none :=
  ⟨rfl, rfl⟩

/-- C10: per the `cascade="all, delete-orphan"` declarations on
`Director.movies` and `Genre.movies`, deleting a Director (resp. Genre)
deletes every Movie referencing it together with that movie's Reviews, while
movies not referencing it survive — even though `director_id`/`genre_id` are
optional references. -/
theorem C10_director_genre_delete_cascade (s : DBState) (did gid : Nat) :
    (∀ m ∈ s.movies, m.director_id = some did →
        m ∉ (delete_director_cascade s did).movies
        ∧ ∀ r ∈ s.reviews, r.movie_id = m.id →
            r ∉ (delete_director_cascade s did).reviews)
    ∧ (∀ m ∈ s.movies, m.director_id ≠ some did →
        m ∈ (delete_director_cascade s did).movies)
    ∧ (∀ m ∈ s.movies, m.genre_id = some gid →
        m ∉ (delete_genre_cascade s gid).movies
        ∧ ∀ r ∈ s.reviews, r.movie_id = m.id →
            r ∉ (delete_genre_cascade s gid).reviews)
    ∧ (∀ m ∈ s.movies, m.genre_id ≠ some gid →
        m ∈ (delete_genre_cascade s gid).movies) := by
  refine ⟨?_, ?_, ?_, ?_⟩
  · intro m hm hdir
    constructor
    · intro hmem
      have hmem2 : m ∈ s.movies.filter (fun mm => mm.director_id != some did) := hmem
      have hp := (List.mem_filter.mp hmem2).2
      simp [hdir] at hp
    · intro r hr hrm hmem
      have hmem2 : r ∈ s.reviews.filter (fun rr =>
          !(((s.movies.filter (fun mm => mm.director_id == some did)).map
              (fun mm => mm.id)).contains rr.movie_id)) := hmem
      have hp := (List.mem_filter.mp hmem2).2
      simp only [Bool.not_eq_eq_eq_not, Bool.not_true] at hp
      apply not_mem_of_contains_eq_false hp
      rw [hrm]
      exact List.mem_map_of_mem _ (List.mem_filter.mpr ⟨hm, by simp [hdir]⟩)
  · intro m hm hdir
    have hmem : m ∈ s.movies.filter (fun mm => mm.director_id != some did) :=
      List.mem_filter.mpr ⟨hm, by simpa using hdir⟩
    exact hmem
  · intro m hm hgen
    constructor
    · intro hmem
      have hmem2 : m ∈ s.movies.filter (fun mm => mm.genre_id != some gid) := hmem
      have hp := (List.mem_filter.mp hmem2).2
      simp [hgen] at hp
    · intro r hr hrm hmem
      have hmem2 : r ∈ s.reviews.filter (fun rr =>
          !(((s.movies.filter (fun mm => mm.genre_id == some gid)).map
              (fun mm => mm.id)).contains rr.movie_id)) := hmem
      have hp := (List.mem_filter.mp hmem2).2
      simp only [Bool.not_eq_eq_eq_not, Bool.not_true] at hp
      apply not_mem_of_contains_eq_false hp
      rw [hrm]
      exact List.mem_map_of_mem _ (List.mem_filter.mpr ⟨hm, by simp [hgen]⟩)
  · intro m hm hgen
    have hmem : m ∈ s.movies.filter (fun mm => mm.genre_id != some gid) :=
      List.mem_filter.mpr ⟨hm, by simpa using hgen⟩
    exact hmem

/-- Witness for C10 at a concrete store: movie 1 references director 1 and
genre 1; after deleting either, movie 1 and its review are gone while movie 2
(which references neither) survives. -/
theorem C10_director_genre_delete_cascade_witness :
    (⟨1, "A", some 1, some 1, 2000, (5 : Rat), 1⟩ : Movie) ∉
        (delete_director_cascade
          ⟨[⟨1, "Lina"⟩], [⟨1, "N", none⟩], [⟨1, "G"⟩],
            [⟨1, "A", some 1, some 1, 2000, (5 : Rat), 1⟩,
             ⟨2, "B", none, none, 2001, (6 : Rat), 1⟩],
            [⟨1, 1, 1, "t", (5 : Rat)⟩, ⟨2, 1, 2, "u", (5 : Rat)⟩],
            2, 2, 2, 3, 3⟩ 1).movies
    ∧ (⟨1, 1, 1, "t", (5 : Rat)⟩ : Review) ∉
        (delete_director_cascade
          ⟨[⟨1, "Lina"⟩], [⟨1, "N", none⟩], [⟨1, "G"⟩],
            [⟨1, "A", some 1, some 1, 2000, (5 : Rat), 1⟩,
             ⟨2, "B", none, none, 2001, (6 : Rat), 1⟩],
            [⟨1, 1, 1, "t", (5 : Rat)⟩, ⟨2, 1, 2, "u", (5 : Rat)⟩],
            2, 2, 2, 3, 3⟩ 1).reviews
    ∧ (⟨2, "B", none, none, 2001, (6 : Rat), 1⟩ : Movie) ∈
        (delete_director_cascade
          ⟨[⟨1, "Lina"⟩], [⟨1, "N", none⟩], [⟨1, "G"⟩],
            [⟨1, "A", some 1, some 1, 2000, (5 : Rat), 1⟩,
             ⟨2, "B", none, none, 2001, (6 : Rat), 1⟩],
            [⟨1, 1, 1, "t", (5 : Rat)⟩, ⟨2, 1, 2, "u", (5 : Rat)⟩],
            2, 2, 2, 3, 3⟩ 1).movies
    ∧ (⟨1, "A", some 1, some 1, 2000, (5 : Rat), 1⟩ : Movie) ∉
        (delete_genre_cascade
          ⟨[⟨1, "Lina"⟩], [⟨1, "N", none⟩], [⟨1, "G"⟩],
            [⟨1, "A", some 1, some 1, 2000, (5 : Rat), 1⟩,
             ⟨2, "B", none, none, 2001, (6 : Rat), 1⟩],
            [⟨1, 1, 1, "t", (5 : Rat)⟩, ⟨2, 1, 2, "u", (5 : Rat)⟩],
            2, 2, 2, 3, 3⟩ 1).movies
    ∧ (⟨1, 1, 1, "t", (5 : Rat)⟩ : Review) ∉
        (delete_genre_cascade
          ⟨[⟨1, "Lina"⟩], [⟨1, "N", none⟩], [⟨1, "G"⟩],
            [⟨1, "A", some 1, some 1, 2000, (5 : Rat), 1⟩,
             ⟨2, "B", none, none, 2001, (6 : Rat), 1⟩],
            [⟨1, 1, 1, "t", (5 : Rat)⟩, ⟨2, 1, 2, "u", (5 : Rat)⟩],
            2, 2, 2, 3, 3⟩ 1).reviews
    ∧ (⟨2, "B", none, none, 2001, (6 : Rat), 1⟩ : Movie) ∈
        (delete_genre_cascade
          ⟨[⟨1, "Lina"⟩], [⟨1, "N", none⟩], [⟨1, "G"⟩],
            [⟨1, "A", some 1, some 1, 2000, (5 : Rat), 1⟩,
             ⟨2, "B", none, none, 2001, (6 : Rat), 1⟩],
            [⟨1, 1, 1, "t", (5 : Rat)⟩, ⟨2, 1, 2, "u", (5 : Rat)⟩],
            2, 2, 2, 3, 3⟩ 1).movies := by
  refine ⟨?_, ?_, ?_, ?_, ?_, ?_⟩
  · exact ((C10_director_genre_delete_cascade
      ⟨[⟨1, "Lina"⟩], [⟨1, "N", none⟩], [⟨1, "G"⟩],
        [⟨1, "A", some 1, some 1, 2000, (5 : Rat), 1⟩,
         ⟨2, "B", none, none, 2001, (6 : Rat), 1⟩],
        [⟨1, 1, 1, "t", (5 : Rat)⟩, ⟨2, 1, 2, "u", (5 : Rat)⟩],
        2, 2, 2, 3, 3⟩ 1 1).1
      ⟨1, "A", some 1, some 1, 2000, (5 : Rat), 1⟩ (by decide) rfl).1
  · exact ((C10_director_genre_delete_cascade
      ⟨[⟨1, "Lina"⟩], [⟨1, "N", none⟩], [⟨1, "G"⟩],
        [⟨1, "A", some 1, some 1, 2000, (5 : Rat), 1⟩,
         ⟨2, "B", none, none, 2001, (6 : Rat), 1⟩],
        [⟨1, 1, 1, "t", (5 : Rat)⟩, ⟨2, 1, 2, "u", (5 : Rat)⟩],
        2, 2, 2, 3, 3⟩ 1 1).1
      ⟨1, "A", some 1, some 1, 2000, (5 : Rat), 1⟩ (by decide) rfl).2
      ⟨1, 1, 1, "t", (5 : Rat)⟩ (by decide) rfl
  · exact (C10_director_genre_delete_cascade
      ⟨[⟨1, "Lina"⟩], [⟨1, "N", none⟩], [⟨1, "G"⟩],
        [⟨1, "A", some 1, some 1, 2000, (5 : Rat), 1⟩,
         ⟨2, "B", none, none, 2001, (6 : Rat), 1⟩],
        [⟨1, 1, 1, "t", (5 : Rat)⟩, ⟨2, 1, 2, "u", (5 : Rat)⟩],
        2, 2, 2, 3, 3⟩ 1 1).2.1
      ⟨2, "B", none, none, 2001, (6 : Rat), 1⟩ (by decide) (by decide)
  · exact ((C10_director_genre_delete_cascade
      ⟨[⟨1, "Lina"⟩], [⟨1, "N", none⟩], [⟨1, "G"⟩],
        [⟨1, "A", some 1, some 1, 2000, (5 : Rat), 1⟩,
         ⟨2, "B", none, none, 2001, (6 : Rat), 1⟩],
        [⟨1, 1, 1, "t", (5 : Rat)⟩, ⟨2, 1, 2, "u", (5 : Rat)⟩],
        2, 2, 2, 3, 3⟩ 1 1).2.2.1
      ⟨1, "A", some 1, some 1, 2000, (5 : Rat), 1⟩ (by decide) rfl).1
  · exact ((C10_director_genre_delete_cascade
      ⟨[⟨1, "Lina"⟩], [⟨1, "N", none⟩], [⟨1, "G"⟩],
        [⟨1, "A", some 1, some 1, 2000, (5 : Rat), 1⟩,
         ⟨2, "B", none, none, 2001, (6 : Rat), 1⟩],
        [⟨1, 1, 1, "t", (5 : Rat)⟩, ⟨2, 1, 2, "u", (5 : Rat)⟩],
        2, 2, 2, 3, 3⟩ 1 1).2.2.1
      ⟨1, "A", some 1, some 1, 2000, (5 : Rat), 1⟩ (by decide) rfl).2
      ⟨1, 1, 1, "t", (5 : Rat)⟩ (by decide) rfl
  · exact (C10_director_genre_delete_cascade
      ⟨[⟨1, "Lina"⟩], [⟨1, "N", none⟩], [⟨1, "G"⟩],
        [⟨1, "A", some 1, some 1, 2000, (5 : Rat), 1⟩,
         ⟨2, "B", none, none, 2001, (6 : Rat), 1⟩],
        [⟨1, 1, 1, "t", (5 : Rat)⟩, ⟨2, 1, 2, "u", (5 : Rat)⟩],
        2, 2, 2, 3, 3⟩ 1 1).2.2.2
      ⟨2, "B", none, none, 2001, (6 : Rat), 1⟩ (by decide) (by decide)

end MovieApp
